import Mathlib

/-
  Shallow embedding of the Acoustic-Drone-Project data pipeline
  (src/Path Prob Visual/PathProb2DVisual.py, PathProb3DVisual.py,
   src/Path Visualizer Prototype/PathProbVisual.py).

  Modelling conventions:
  * pandas cells read with dtype=str are `Option String` (none = NaN);
  * numeric cells after pd.to_numeric(..., errors="coerce") are `Option ℚ`
    (none = NaN); timestamps after pd.to_datetime(..., errors="coerce") are
    `Option Int` (an abstract instant in ms, none = NaT) — the datetime and
    numeric text parsers themselves are pandas internals, out of scope of the
    claims, so rows enter the model already coerced;
  * Python floats are modelled as ℚ (all values arising here are decimal);
  * a Python exception is the `Except.error` branch.
-/

namespace AcousticDrone

/-- A Python value as it can reach `extract_drone_value` via `str(text)`:
a text cell, `None`, a float `NaN` cell of a dtype=str column, or some other
non-text value (modelled by an integer). -/
inductive PyVal where
  | str (s : String)
  | pynone
  | nan
  | intv (n : Int)
deriving DecidableEq

/-- Python `str(text)` for the values of `PyVal`. -/
def pyStr : PyVal → String
  | .str s => s
  | .pynone => "None"
  | .nan => "nan"
  | .intv n => toString n

/-- Python regex `\s` (ASCII range; the data only contains plain spaces). -/
def isPySpace (c : Char) : Bool :=
  c = ' ' || c = '\t' || c = '\n' || c = '\r' || c = '\x0b' || c = '\x0c'

/-- Character class `[\d\.]` of the pattern (the prototype writes `[0-9.]`). -/
def isDigitDot (c : Char) : Bool :=
  c.isDigit || c = '.'

/-- Match the pattern `drone:\s*([\d\.]+)` at the start of `cs`, returning the
captured group.  Greedy `\s*` then at least one `[\d\.]` character; no
backtracking can help because a whitespace character is never in `[\d\.]`. -/
def matchDroneAt (cs : List Char) : Option (List Char) :=
  if "drone:".toList.isPrefixOf cs then
    let cap := ((cs.drop 6).dropWhile isPySpace).takeWhile isDigitDot
    if cap.isEmpty then Option.none else some cap
  else Option.none

/-- `re.search`: the leftmost position where the pattern matches. -/
def searchDrone : List Char → Option (List Char)
  | [] => Option.none
  | c :: cs =>
    match matchDroneAt (c :: cs) with
    | some cap => some cap
    | Option.none => searchDrone cs

/-- Value of a string of decimal digits. -/
def digitsVal (cs : List Char) : Nat :=
  cs.foldl (fun a c => 10 * a + (c.toNat - 48)) 0

/-- Python `float(s)` restricted to the strings the capture group can produce
(digits and dots only): it succeeds iff there is at most one dot and at least
one digit, e.g. `float("1.2.3")` and `float(".")` raise `ValueError`. -/
def pyFloatOfToken (cs : List Char) : Except String ℚ :=
  if cs.count '.' ≤ 1 && cs.any Char.isDigit then
    let ip := cs.takeWhile (fun c => c ≠ '.')
    let fp := (cs.dropWhile (fun c => c ≠ '.')).drop 1
    Except.ok ((digitsVal ip : ℚ) + (digitsVal fp : ℚ) / (10 : ℚ) ^ fp.length)
  else
    Except.error "could not convert string to float"

/-- `extract_drone_value` (defined identically in PathProb2DVisual.py line 27,
PathProb3DVisual.py line 26, and — with the equivalent class `[0-9.]` —
PathProbVisual.py line 26): `re.search(r"drone:\s*([\d\.]+)", str(text))`,
returning `float(match.group(1))` on a match and NaN (modelled `none`)
otherwise.  `float` can raise, hence the `Except`. -/
def extract_drone_value (text : PyVal) : Except String (Option ℚ) :=
  match searchDrone (pyStr text).toList with
  | some cap => (pyFloatOfToken cap).map some
  | Option.none => Except.ok Option.none

/-- Substring occurrence at some position of a character list. -/
def charsContain (needle : List Char) : List Char → Bool
  | [] => needle.isEmpty
  | c :: cs => needle.isPrefixOf (c :: cs) || charsContain needle cs

/-- Substring test: Python `in` / `pandas.Series.str.contains` with a
metacharacter-free pattern. -/
def containsStr (needle hay : String) : Bool :=
  charsContain needle.toList hay.toList

/-- `Series.str.contains(needle, na=False)` on one cell: a NaN cell counts as
no match. -/
def statusContainsNaFalse (needle : String) (st : Option String) : Bool :=
  match st with
  | some s => containsStr needle s
  | Option.none => false

/-- One raw CSV row after positional column selection and pandas coercions
(2D: `iloc[:, [7, 4, 9, 5, 6]]`; 3D selects only the first three of these).
`timestamp` is col 7 after to_datetime, `droneProb` col 4 as read (dtype=str),
`status` col 9, `latitude`/`longitude` cols 5/6 after to_numeric. -/
structure RawRow where
  timestamp : Option Int
  droneProb : PyVal
  status : Option String
  latitude : Option ℚ
  longitude : Option ℚ
deriving DecidableEq

/-- PathProb2DVisual.py line 61: drop rows whose Status contains "Invalid"
(NaN statuses survive this step because of na=False under negation). -/
def dropInvalid2D (rows : List RawRow) : List RawRow :=
  rows.filter (fun r => !(statusContainsNaFalse "Invalid" r.status))

/-- PathProb2DVisual.py line 62: keep rows whose Status contains "Valid". -/
def keepValid2D (rows : List RawRow) : List RawRow :=
  rows.filter (fun r => statusContainsNaFalse "Valid" r.status)

/-- PathProb2DVisual.py lines 60-76 applied to one CSV file: filter by status,
then `df[node_name] = df["DroneProb"].apply(extract_drone_value)` (the `apply`
propagates an exception from any row), then keep only Timestamp and the node
value column. -/
def processFile2D (rows : List RawRow) : Except String (List (Option Int × Option ℚ)) :=
  (keepValid2D (dropInvalid2D rows)).mapM
    (fun r => (extract_drone_value r.droneProb).map (fun v => (r.timestamp, v)))

/-- PathProb3DVisual.py line 52 (same text as the 2D variant). -/
def dropInvalid3D (rows : List RawRow) : List RawRow :=
  rows.filter (fun r => !(statusContainsNaFalse "Invalid" r.status))

/-- PathProb3DVisual.py line 53. -/
def keepValid3D (rows : List RawRow) : List RawRow :=
  rows.filter (fun r => statusContainsNaFalse "Valid" r.status)

/-- PathProb3DVisual.py lines 52-57 applied to one CSV file. -/
def processFile3D (rows : List RawRow) : Except String (List (Option Int × Option ℚ)) :=
  (keepValid3D (dropInvalid3D rows)).mapM
    (fun r => (extract_drone_value r.droneProb).map (fun v => (r.timestamp, v)))

/-- The node table: a DataFrame keyed by the Timestamp column (`Option Int`,
none = NaT), with one listed value column per entry of `cols` and the value
cells of each row aligned with `cols` (`Option ℚ`, none = NaN). -/
structure DF where
  cols : List String
  rows : List (Option Int × List (Option ℚ))
deriving DecidableEq

/-- `pandas.DataFrame.empty`: true when either axis has length zero. -/
def dfEmpty (df : DF) : Bool :=
  df.rows.isEmpty || df.cols.isEmpty

/-- The Timestamp keys of a node table, in row order. -/
def keysOf (df : DF) : List (Option Int) :=
  df.rows.map Prod.fst

/-- Column names of `pd.merge(a, b, on="Timestamp", how="outer")`: non-key
columns occurring on both sides get the default suffixes `_x` / `_y`. -/
def suffixCols (acols bcols : List String) : List String :=
  acols.map (fun c => if decide (c ∈ bcols) then c ++ "_x" else c) ++
    bcols.map (fun c => if decide (c ∈ acols) then c ++ "_y" else c)

/-- `pd.merge(a, b, on="Timestamp", how="outer", sort=False)`: every pair of
rows with equal keys is combined; a left row with no key match on the right is
padded with NaN on the right columns, and the right rows whose key never occurs
on the left are appended, padded with NaN on the left columns. -/
def mergeOuter (a b : DF) : DF where
  cols := suffixCols a.cols b.cols
  rows :=
    (a.rows.flatMap (fun ar =>
      let hits := b.rows.filter (fun br => decide (br.1 = ar.1))
      if hits.isEmpty then
        [(ar.1, ar.2 ++ List.replicate b.cols.length (Option.none : Option ℚ))]
      else
        hits.map (fun br => (ar.1, ar.2 ++ br.2)))) ++
    ((b.rows.filter (fun br => decide (br.1 ∉ keysOf a))).map
      (fun br => (br.1, List.replicate a.cols.length (Option.none : Option ℚ) ++ br.2)))

/-- PathProb2DVisual.py lines 79-82: the running `node_data` accumulator —
replaced outright while still empty, outer-merged afterwards. -/
def mergeLoop2D (dfs : List DF) : DF :=
  dfs.foldl (fun acc df => if dfEmpty acc then df else mergeOuter acc df) ⟨[], []⟩

/-- PathProb3DVisual.py lines 60-63 (same text as the 2D variant). -/
def mergeLoop3D (dfs : List DF) : DF :=
  dfs.foldl (fun acc df => if dfEmpty acc then df else mergeOuter acc df) ⟨[], []⟩

/-- Sorted insertion used to model `sort_values`. -/
def insertByLe {α : Type} (le : α → α → Bool) (x : α) : List α → List α
  | [] => [x]
  | y :: ys => if le x y then x :: y :: ys else y :: insertByLe le x ys

/-- Comparison sort (pandas `sort_values`); with the pairwise-distinct keys of
the claims any comparison sort produces the same row order. -/
def sortByLe {α : Type} (le : α → α → Bool) (l : List α) : List α :=
  l.foldr (insertByLe le) []

/-- Key order of `sort_values("Timestamp")`: ascending, NaT placed last
(pandas default na_position="last"). -/
def tsLe : Option Int → Option Int → Bool
  | _, Option.none => true
  | Option.none, some _ => false
  | some a, some b => a ≤ b

/-- `node_data.sort_values("Timestamp")` (PathProb2DVisual.py line 94,
PathProb3DVisual.py line 66). -/
def sortDf (df : DF) : DF :=
  { df with rows := sortByLe (fun r s => tsLe r.1 s.1) df.rows }

/-- `node_data.fillna(0)` (PathProb2DVisual.py line 95, PathProb3DVisual.py
line 67) on the node value columns: every NaN cell becomes 0.  (The Timestamp
key column is a datetime block, which `fillna(0)` leaves untouched.) -/
def fillna0 (df : DF) : DF :=
  { df with rows := df.rows.map (fun r => (r.1, r.2.map (fun c => some (c.getD 0)))) }

/-- The per-file single-column DataFrame `df[["Timestamp", node_name]]` of the
2D variant, built from `processFile2D`. -/
def fileDf2D (name : String) (rows : List RawRow) : Except String DF :=
  (processFile2D rows).map (fun l => DF.mk [name] (l.map (fun p => (p.1, [p.2]))))

/-- The same per-file DataFrame in the 3D variant. -/
def fileDf3D (name : String) (rows : List RawRow) : Except String DF :=
  (processFile3D rows).map (fun l => DF.mk [name] (l.map (fun p => (p.1, [p.2]))))

/-- PathProb2DVisual.py lines 32-82: iterate over the node folders and their
CSV files in order (the source interleaves reading one file and merging it;
reading all per-file frames first and then folding the merge performs the same
merges and surfaces the same first error). -/
def buildNodeData2D (folders : List (String × List (List RawRow))) : Except String DF :=
  ((folders.flatMap (fun f => f.2.map (fun rows => (f.1, rows)))).mapM
      (fun fr => fileDf2D fr.1 fr.2)).map mergeLoop2D

/-- PathProb3DVisual.py lines 31-63. -/
def buildNodeData3D (folders : List (String × List (List RawRow))) : Except String DF :=
  ((folders.flatMap (fun f => f.2.map (fun rows => (f.1, rows)))).mapM
      (fun fr => fileDf3D fr.1 fr.2)).map mergeLoop3D

/-- The finished JointNodeTable of the 2D variant (lines 32-95): merged,
sorted by timestamp, NaN cells filled with 0. -/
def nodeTable2D (folders : List (String × List (List RawRow))) : Except String DF :=
  (buildNodeData2D folders).map (fun df => fillna0 (sortDf df))

/-- The finished JointNodeTable of the 3D variant (lines 31-67). -/
def nodeTable3D (folders : List (String × List (List RawRow))) : Except String DF :=
  (buildNodeData3D folders).map (fun df => fillna0 (sortDf df))

/-- The per-node (timestamp, value) series a folder with a single CSV file
contributes, used to state the JointNodeTable invariants. -/
def seriesOf (f : String × List RawRow) : List (Option Int × Option ℚ) :=
  ((processFile2D f.2).toOption).getD []

/-- The timestamps of that series. -/
def seriesKeysOf (f : String × List RawRow) : List (Option Int) :=
  (seriesOf f).map Prod.fst

/-- The single-column DataFrame a one-file node folder contributes
(`df[["Timestamp", node_name]]` of that file). -/
def seriesDf (f : String × List RawRow) : DF :=
  ⟨[f.1], (seriesOf f).map (fun p => (p.1, [p.2]))⟩

/-- A decoded MAVLink message dictionary as far as the adapters inspect it:
each of the five fields may be absent from `msg.to_dict()`. -/
structure RawMsg where
  gms : Option Int
  gwk : Option Int
  lat : Option Int
  lng : Option Int
  alt : Option Int
deriving DecidableEq

/-- A GPS record all of whose required fields were present. -/
structure GpsRec where
  gms : Int
  gwk : Int
  lat : Int
  lng : Int
  alt : Int
deriving DecidableEq

/-- PathProb2DVisual.py line 128: keep a message only if all of GMS, GWk, Lat,
Lng are present (Alt is not required by the 2D variant; a missing Alt is
carried along as 0 here since the 2D pipeline never reads it). -/
def collectGps2D (msgs : List RawMsg) : List GpsRec :=
  msgs.filterMap (fun m =>
    match m.gms, m.gwk, m.lat, m.lng with
    | some gms, some gwk, some lat, some lng =>
      some ⟨gms, gwk, lat, lng, m.alt.getD 0⟩
    | _, _, _, _ => Option.none)

/-- PathProb3DVisual.py line 100: the 3D variant also requires Alt. -/
def collectGps3D (msgs : List RawMsg) : List GpsRec :=
  msgs.filterMap (fun m =>
    match m.gms, m.gwk, m.lat, m.lng, m.alt with
    | some gms, some gwk, some lat, some lng, some alt =>
      some ⟨gms, gwk, lat, lng, alt⟩
    | _, _, _, _, _ => Option.none)

/-- Timestamp reconstruction (both variants):
`gps_epoch + timedelta(weeks=GWk, milliseconds=GMS - 18*1000)`, expressed in
milliseconds since the GPS epoch 1980-01-06. -/
def gpsTimestampMs (gwk gms : Int) : Int :=
  gwk * 604800000 + gms - 18000

/-- PathProb3DVisual.py lines 114-125: Timestamp, then
`Lat / 1e7`, `Lng / 1e7`, `Alt / 100`. -/
def adapter3D (msgs : List RawMsg) : List (Int × ℚ × ℚ × ℚ) :=
  (collectGps3D msgs).map (fun g =>
    (gpsTimestampMs g.gwk g.gms,
     (g.lat : ℚ) / 10 ^ 7, (g.lng : ℚ) / 10 ^ 7, (g.alt : ℚ) / 100))

/-- PathProb2DVisual.py lines 142-149: Timestamp, then
`pd.to_numeric(Lat)`, `pd.to_numeric(Lng)` — the comment on line 147 reads
"fix: remove incorrect division", so the raw integers pass through unscaled. -/
def adapter2D (msgs : List RawMsg) : List (Int × ℚ × ℚ) :=
  (collectGps2D msgs).map (fun g =>
    (gpsTimestampMs g.gwk g.gms, (g.lat : ℚ), (g.lng : ℚ)))

/-- `asof_join_backward`: the last row whose key is ≤ t (both variants call
`pd.merge_asof` with sorted inputs). -/
def asofBackward {β : Type} (t : Int) (rows : List (Int × β)) : Option (Int × β) :=
  rows.foldl (fun acc r => if r.1 ≤ t then some r else acc) Option.none

/-- `asof_join_forward`: the first row whose key is ≥ t. -/
def asofForward {β : Type} (t : Int) (rows : List (Int × β)) : Option (Int × β) :=
  rows.foldr (fun r acc => if t ≤ r.1 then some r else acc) Option.none

/-- `direction="nearest"` of `pd.merge_asof`: take the backward and the
forward candidate; when both exist the backward one wins iff
`t - backward ≤ forward - t` (pandas `_libs/join.pyx`, `bdiff <= fdiff`). -/
def asofNearest {β : Type} (t : Int) (rows : List (Int × β)) : Option (Int × β) :=
  match asofBackward t rows, asofForward t rows with
  | Option.none, f => f
  | some b, Option.none => some b
  | some b, some f => if t - b.1 ≤ f.1 - t then some b else some f

/-- `pd.merge_asof(left, right, on="Timestamp", direction="nearest")`: one
output row per left row, carrying the matched right row if any. -/
def mergeAsofNearest {α β : Type} (left : List (Int × α)) (right : List (Int × β)) :
    List (Int × α × Option β) :=
  left.map (fun l => (l.1, l.2, (asofNearest l.1 right).map Prod.snd))

/-- Ascending order on the integer keys used by the final merge. -/
def keyLe {α : Type} (r s : Int × α) : Bool :=
  r.1 ≤ s.1

/-- PathProb2DVisual.py lines 155-159 / PathProb3DVisual.py lines 132-136:
`df_final = pd.merge_asof(node_data.sort_values("Timestamp"),
df_drone.sort_values("Timestamp"), on="Timestamp", direction="nearest")` —
the LEFT (driving) frame is the node table, the right one the telemetry. -/
def alignNodeDrone {α β : Type} (nodeRows : List (Int × α)) (droneRows : List (Int × β)) :
    List (Int × α × Option β) :=
  mergeAsofNearest (sortByLe keyLe nodeRows) (sortByLe keyLe droneRows)

/-- Aggregate Scorer: `df_final["MaxNode"] = df_final[node_columns].max(axis=1)`
(NaN when a row has no node columns). -/
def maxConcern (nodeVals : List ℚ) : Option ℚ :=
  nodeVals.max?

/-- The color normalization guard (PathProb2DVisual.py lines 183-190,
PathProb3DVisual.py lines 163-170): given the computed min and max,
`if min_val == max_val: min_val, max_val = 0, 1`. -/
def colorRange (mn mx : ℚ) : ℚ × ℚ :=
  if mn = mx then ((0 : ℚ), (1 : ℚ)) else (mn, mx)

/-! ### Helper lemmas -/

theorem length_insertByLe {α : Type} (le : α → α → Bool) (x : α) (l : List α) :
    (insertByLe le x l).length = l.length + 1 := by
  induction l with
  | nil => rfl
  | cons y ys ih =>
    simp only [insertByLe]
    split
    · simp
    · simp [ih]

theorem length_sortByLe {α : Type} (le : α → α → Bool) (l : List α) :
    (sortByLe le l).length = l.length := by
  induction l with
  | nil => rfl
  | cons x xs ih =>
    simp only [sortByLe, List.foldr_cons] at *
    rw [length_insertByLe, ih, List.length_cons]

theorem filter_key_eq_nil {l : List (Option Int × List (Option ℚ))} {k : Option Int}
    (hk : k ∉ l.map Prod.fst) :
    l.filter (fun br => decide (br.1 = k)) = [] := by
  induction l with
  | nil => rfl
  | cons hd tl ih =>
    simp only [List.map_cons, List.mem_cons, not_or] at hk
    have h1 : ¬ (hd.1 = k) := fun h => hk.1 h.symm
    simp [List.filter_cons, h1, ih hk.2]

theorem filter_key_single {l : List (Option Int × List (Option ℚ))}
    (hl : (l.map Prod.fst).Nodup) (k : Option Int) :
    l.filter (fun br => decide (br.1 = k)) = [] ∨
      ∃ br, l.filter (fun br => decide (br.1 = k)) = [br] := by
  induction l with
  | nil => exact Or.inl rfl
  | cons hd tl ih =>
    simp only [List.map_cons, List.nodup_cons] at hl
    by_cases h : hd.1 = k
    · right
      refine ⟨hd, ?_⟩
      have h0 : tl.filter (fun br => decide (br.1 = k)) = [] :=
        filter_key_eq_nil (by rw [← h]; exact hl.1)
      simp [List.filter_cons, h, h0]
    · rcases ih hl.2 with h0 | ⟨br, hbr⟩
      · exact Or.inl (by simp [List.filter_cons, h, h0])
      · exact Or.inr ⟨br, by simp [List.filter_cons, h, hbr]⟩

theorem map_fst_filter {α β : Type} (p : α → Bool) (l : List (α × β)) :
    (l.filter (fun x => p x.1)).map Prod.fst = (l.map Prod.fst).filter p := by
  induction l with
  | nil => rfl
  | cons hd tl ih =>
    by_cases h : p hd.1 <;> simp [List.filter_cons, h, ih]

theorem map_fst_flatMap_merge (b : DF) (hb : (keysOf b).Nodup)
    (rows : List (Option Int × List (Option ℚ))) :
    (rows.flatMap (fun ar =>
      let hits := b.rows.filter (fun br => decide (br.1 = ar.1))
      if hits.isEmpty then
        [(ar.1, ar.2 ++ List.replicate b.cols.length (Option.none : Option ℚ))]
      else
        hits.map (fun br => (ar.1, ar.2 ++ br.2)))).map Prod.fst = rows.map Prod.fst := by
  induction rows with
  | nil => rfl
  | cons ar tl ih =>
    rw [List.flatMap_cons, List.map_append, ih]
    rcases filter_key_single (l := b.rows) hb ar.1 with h0 | ⟨br, hbr⟩
    · simp [h0]
    · simp [hbr]

theorem keysOf_mergeOuter (a b : DF) (hb : (keysOf b).Nodup) :
    keysOf (mergeOuter a b) =
      keysOf a ++ (keysOf b).filter (fun k => decide (k ∉ keysOf a)) := by
  unfold keysOf mergeOuter
  rw [List.map_append]
  congr 1
  · exact map_fst_flatMap_merge b hb a.rows
  · rw [List.map_map]
    exact map_fst_filter (fun k => decide (k ∉ keysOf a)) b.rows

theorem cols_mergeOuter_disjoint (a b : DF) (h : ∀ c ∈ a.cols, c ∉ b.cols) :
    (mergeOuter a b).cols = a.cols ++ b.cols := by
  show suffixCols a.cols b.cols = a.cols ++ b.cols
  unfold suffixCols
  congr 1
  · conv_rhs => rw [← List.map_id a.cols]
    apply List.map_congr_left
    intro c hc
    simp [h c hc]
  · conv_rhs => rw [← List.map_id b.cols]
    apply List.map_congr_left
    intro c hc
    have hca : c ∉ a.cols := fun hca => h c hca hc
    simp [hca]

theorem toFinset_append_filter (l1 l2 : List (Option Int)) :
    (l1 ++ l2.filter (fun k => decide (k ∉ l1))).toFinset = l1.toFinset ∪ l2.toFinset := by
  ext x
  simp only [List.toFinset_append, Finset.mem_union, List.mem_toFinset, List.mem_filter,
    decide_eq_true_eq]
  constructor
  · rintro (h | ⟨h, -⟩)
    · exact Or.inl h
    · exact Or.inr h
  · rintro (h | h)
    · exact Or.inl h
    · by_cases hx : x ∈ l1
      · exact Or.inl hx
      · exact Or.inr ⟨h, hx⟩

theorem nodup_append_filter (l1 l2 : List (Option Int)) (h1 : l1.Nodup) (h2 : l2.Nodup) :
    (l1 ++ l2.filter (fun k => decide (k ∉ l1))).Nodup := by
  rw [List.nodup_append]
  refine ⟨h1, h2.filter _, ?_⟩
  intro a ha hma
  rcases List.mem_filter.mp hma with ⟨-, hdec⟩
  exact (of_decide_eq_true hdec) ha

theorem foldl_merge_invariant (dfs : List DF) (acc : DF)
    (haccc : acc.cols ≠ [])
    (haccr : acc.rows ≠ [])
    (haccn : (keysOf acc).Nodup)
    (hkeys : ∀ df ∈ dfs, (keysOf df).Nodup)
    (hdisj : ∀ df ∈ dfs, ∀ c ∈ df.cols, c ∉ acc.cols)
    (hpair : (dfs.flatMap DF.cols).Nodup) :
    (dfs.foldl (fun acc df => if dfEmpty acc then df else mergeOuter acc df) acc).cols =
        acc.cols ++ dfs.flatMap DF.cols ∧
    (keysOf (dfs.foldl (fun acc df => if dfEmpty acc then df else mergeOuter acc df) acc)).Nodup ∧
    (keysOf (dfs.foldl (fun acc df => if dfEmpty acc then df else mergeOuter acc df) acc)).toFinset =
        (keysOf acc).toFinset ∪ (dfs.flatMap keysOf).toFinset ∧
    (dfs.foldl (fun acc df => if dfEmpty acc then df else mergeOuter acc df) acc).rows ≠ [] := by
  induction dfs generalizing acc with
  | nil =>
    refine ⟨by simp, haccn, by simp, haccr⟩
  | cons df rest ih =>
    have hfalse : dfEmpty acc = false := by
      unfold dfEmpty
      simp [haccr, haccc]
    simp only [List.foldl_cons, hfalse, Bool.false_eq_true, if_false]
    have hmemdf : df ∈ df :: rest := List.mem_cons_self df rest
    have hcolsA : (mergeOuter acc df).cols = acc.cols ++ df.cols :=
      cols_mergeOuter_disjoint acc df
        (fun c hc hcd => hdisj df hmemdf c hcd hc)
    have hkA : keysOf (mergeOuter acc df) =
        keysOf acc ++ (keysOf df).filter (fun k => decide (k ∉ keysOf acc)) :=
      keysOf_mergeOuter acc df (hkeys df hmemdf)
    have hnA : (keysOf (mergeOuter acc df)).Nodup := by
      rw [hkA]; exact nodup_append_filter _ _ haccn (hkeys df hmemdf)
    have htA : (keysOf (mergeOuter acc df)).toFinset =
        (keysOf acc).toFinset ∪ (keysOf df).toFinset := by
      rw [hkA]; exact toFinset_append_filter _ _
    have hrA : (mergeOuter acc df).rows ≠ [] := by
      intro h
      apply haccr
      have hk0 : keysOf (mergeOuter acc df) = [] := by simp [keysOf, h]
      rw [hkA] at hk0
      have := (List.append_eq_nil.mp hk0).1
      exact List.map_eq_nil_iff.mp this
    have hcA : (mergeOuter acc df).cols ≠ [] := by
      rw [hcolsA]
      intro h
      exact haccc (List.append_eq_nil.mp h).1
    have hkeys' : ∀ d ∈ rest, (keysOf d).Nodup :=
      fun d hd => hkeys d (List.mem_cons_of_mem _ hd)
    have hdisj' : ∀ d ∈ rest, ∀ c ∈ d.cols, c ∉ (mergeOuter acc df).cols := by
      intro d hd c hc
      rw [hcolsA]
      simp only [List.mem_append, not_or]
      refine ⟨hdisj d (List.mem_cons_of_mem _ hd) c hc, ?_⟩
      have hdisj2 : List.Disjoint df.cols (rest.flatMap DF.cols) := by
        have hp := hpair
        rw [List.flatMap_cons] at hp
        exact List.disjoint_of_nodup_append hp
      intro hcd
      exact hdisj2 hcd (List.mem_flatMap.mpr ⟨d, hd, hc⟩)
    have hpair' : (rest.flatMap DF.cols).Nodup := by
      rw [List.flatMap_cons] at hpair
      exact hpair.of_append_right
    obtain ⟨c1, c2, c3, c4⟩ := ih (mergeOuter acc df) hcA hrA hnA hkeys' hdisj' hpair'
    refine ⟨?_, c2, ?_, c4⟩
    · rw [c1, hcolsA, List.flatMap_cons, List.append_assoc]
    · rw [c3, htA, List.flatMap_cons, List.toFinset_append, Finset.union_assoc]

theorem keysOf_seriesDf (f : String × List RawRow) :
    keysOf (seriesDf f) = seriesKeysOf f := by
  simp [keysOf, seriesDf, seriesKeysOf, List.map_map]

theorem flatMap_cols_map_seriesDf (l : List (String × List RawRow)) :
    (l.map seriesDf).flatMap DF.cols = l.map Prod.fst := by
  induction l with
  | nil => rfl
  | cons f rest ih => simp [seriesDf, ih]

theorem flatMap_keys_map_seriesDf (l : List (String × List RawRow)) :
    (l.map seriesDf).flatMap keysOf = l.flatMap seriesKeysOf := by
  induction l with
  | nil => rfl
  | cons f rest ih => simp [keysOf_seriesDf, ih]

theorem flatten_one_file (folders : List (String × List RawRow)) :
    (folders.map (fun f => (f.1, [f.2]))).flatMap
      (fun f => f.2.map (fun rows => (f.1, rows))) = folders := by
  induction folders with
  | nil => rfl
  | cons f rest ih => simp [ih]

theorem mapM_fileDf2D (folders : List (String × List RawRow))
    (hok : ∀ f ∈ folders, (processFile2D f.2).toOption ≠ Option.none) :
    folders.mapM (fun fr => fileDf2D fr.1 fr.2) = Except.ok (folders.map seriesDf) := by
  induction folders with
  | nil => rfl
  | cons f rest ih =>
    have h1 := hok f (List.mem_cons_self _ _)
    rcases hpf : processFile2D f.2 with e | l
    · rw [hpf] at h1
      simp [Except.toOption] at h1
    · have hfile : fileDf2D f.1 f.2 =
          Except.ok (DF.mk [f.1] (l.map (fun p => (p.1, [p.2])))) := by
        simp [fileDf2D, hpf, Except.map]
      have hser : seriesDf f = DF.mk [f.1] (l.map (fun p => (p.1, [p.2]))) := by
        simp [seriesDf, seriesOf, hpf, Except.toOption]
      have hrest : rest.mapM (fun fr => fileDf2D fr.1 fr.2) =
          Except.ok (rest.map seriesDf) :=
        ih (fun g hg => hok g (List.mem_cons_of_mem _ hg))
      rw [List.mapM_cons, hfile, hrest]
      simp only [List.map_cons, hser]
      rfl

/-! ### Claim theorems -/

/-- C5 (code_bug evidence): the Value Extractor does not tolerate every input —
the capture group of `drone:\s*([\d\.]+)` can be a token `float` rejects, and
then `float(match.group(1))` raises `ValueError` instead of returning the
absent value: concretely on the inputs "drone: 1.2.3" and "drone: .". -/
theorem extract_drone_value_raises_on_malformed_token :
    extract_drone_value (PyVal.str "drone: 1.2.3") =
      Except.error "could not convert string to float" ∧
    extract_drone_value (PyVal.str "drone: .") =
      Except.error "could not convert string to float" := by
  exact ⟨rfl, rfl⟩

/-- C6: the Value Extractor returns 0.42 on "drone: 0.42"; the absent value on
"foo", on None and on a non-text input; and the value of the first labeled
token only when several occur. -/
theorem extract_drone_value_cases :
    extract_drone_value (PyVal.str "drone: 0.42") = Except.ok (some ((42 : ℚ) / 100)) ∧
    extract_drone_value (PyVal.str "foo") = Except.ok Option.none ∧
    extract_drone_value PyVal.pynone = Except.ok Option.none ∧
    extract_drone_value (PyVal.intv 7) = Except.ok Option.none ∧
    extract_drone_value (PyVal.str "drone: 0.1 drone: 0.9") =
      Except.ok (some ((1 : ℚ) / 10)) := by
  have h1 : extract_drone_value (PyVal.str "drone: 0.42") =
      Except.ok (some (((0 : ℕ) : ℚ) + ((42 : ℕ) : ℚ) / (10 : ℚ) ^ (2 : ℕ))) := rfl
  have h2 : extract_drone_value (PyVal.str "drone: 0.1 drone: 0.9") =
      Except.ok (some (((0 : ℕ) : ℚ) + ((1 : ℕ) : ℚ) / (10 : ℚ) ^ (1 : ℕ))) := rfl
  refine ⟨?_, rfl, rfl, rfl, ?_⟩
  · rw [h1, show (((0 : ℕ) : ℚ) + ((42 : ℕ) : ℚ) / (10 : ℚ) ^ (2 : ℕ)) =
      (42 : ℚ) / 100 by norm_num]
  · rw [h2, show (((0 : ℕ) : ℚ) + ((1 : ℕ) : ℚ) / (10 : ℚ) ^ (1 : ℕ)) =
      (1 : ℚ) / 10 by norm_num]

/-- C3: a raw row survives the Node Stream Normalizer's status filter iff its
status text contains "Valid" and does not contain "Invalid" (a NaN status —
neither marker — is excluded, fail-closed); and retention of a row depends only
on its status field. -/
theorem status_filter_characterization :
    (∀ (rows : List RawRow) (r : RawRow),
        r ∈ keepValid2D (dropInvalid2D rows) ↔
          r ∈ rows ∧ statusContainsNaFalse "Valid" r.status = true ∧
            statusContainsNaFalse "Invalid" r.status = false)
    ∧ ∀ r1 r2 : RawRow, r1.status = r2.status →
        (r1 ∈ keepValid2D (dropInvalid2D [r1]) ↔ r2 ∈ keepValid2D (dropInvalid2D [r2])) := by
  constructor
  · intro rows r
    simp [keepValid2D, dropInvalid2D, List.mem_filter, Bool.not_eq_true', and_assoc]
  · intro r1 r2 h
    simp [keepValid2D, dropInvalid2D, List.mem_filter, h]

/-- Witness for C3 at a concrete row: status "Valid" with every other field
degenerate is retained. -/
theorem status_filter_characterization_witness :
    (⟨some 0, PyVal.nan, some "Valid", Option.none, Option.none⟩ : RawRow) ∈
      keepValid2D (dropInvalid2D
        [(⟨some 0, PyVal.nan, some "Valid", Option.none, Option.none⟩ : RawRow)]) :=
  (status_filter_characterization.1 _ _).mpr ⟨by decide, by decide, by decide⟩

/-- C1 (amended): the asof join of the pipeline drives on the node table — its
output has exactly one row per JointNodeTable row, for every node table and
every telemetry sequence. -/
theorem alignNodeDrone_length {α β : Type}
    (nodeRows : List (Int × α)) (droneRows : List (Int × β)) :
    (alignNodeDrone nodeRows droneRows).length = nodeRows.length := by
  simp [alignNodeDrone, mergeAsofNearest, length_sortByLe]

/-- C1 (counterexample to the claim as stated): with a 2-row node table and 3
telemetry fixes the merged output has 2 rows, not one per telemetry fix. -/
theorem alignNodeDrone_count_counterexample :
    (alignNodeDrone [((0 : Int), [(1 : ℚ)]), (10, [2])]
        [((1 : Int), (5 : ℚ)), (2, 6), (3, 7)]).length = 2 ∧
    [((1 : Int), (5 : ℚ)), (2, 6), (3, 7)].length = 3 ∧ (2 : Nat) ≠ 3 := by
  refine ⟨rfl, rfl, by decide⟩

/-- C4 (amended): in the 3D variant every adapted telemetry fix carries the raw
latitude and longitude divided by 1e7 and the raw altitude divided by 100. -/
theorem adapter3D_scales (msgs : List RawMsg) (p : Int × ℚ × ℚ × ℚ)
    (hp : p ∈ adapter3D msgs) :
    ∃ g ∈ collectGps3D msgs,
      p.1 = gpsTimestampMs g.gwk g.gms ∧ p.2.1 = (g.lat : ℚ) / 10 ^ 7 ∧
      p.2.2.1 = (g.lng : ℚ) / 10 ^ 7 ∧ p.2.2.2 = (g.alt : ℚ) / 100 := by
  simp only [adapter3D, List.mem_map] at hp
  obtain ⟨g, hg, rfl⟩ := hp
  exact ⟨g, hg, rfl, rfl, rfl, rfl⟩

/-- Witness for C4's amended theorem at one concrete decoded message. -/
theorem adapter3D_scales_witness :
    ∃ g ∈ collectGps3D [(⟨some 1000, some 2, some 473566730, some 190000000,
        some 12345⟩ : RawMsg)],
      (1209583000 : Int) = gpsTimestampMs g.gwk g.gms ∧
      ((473566730 : Int) : ℚ) / 10 ^ 7 = (g.lat : ℚ) / 10 ^ 7 ∧
      ((190000000 : Int) : ℚ) / 10 ^ 7 = (g.lng : ℚ) / 10 ^ 7 ∧
      ((12345 : Int) : ℚ) / 100 = (g.alt : ℚ) / 100 :=
  adapter3D_scales _ ((1209583000 : Int), ((473566730 : Int) : ℚ) / 10 ^ 7,
    ((190000000 : Int) : ℚ) / 10 ^ 7, ((12345 : Int) : ℚ) / 100)
    (List.mem_singleton.mpr rfl)

/-- C4 (counterexample to the claim as stated): the 2D variant passes the raw
fixed-point latitude through unscaled — the in-code comment reads
"fix: remove incorrect division". -/
theorem adapter2D_no_scaling_counterexample :
    adapter2D [(⟨some 1000, some 2, some 473566730, some 190000000,
        some 12345⟩ : RawMsg)] =
      [((1209583000 : Int), ((473566730 : Int) : ℚ), ((190000000 : Int) : ℚ))] ∧
    ((473566730 : Int) : ℚ) ≠ ((473566730 : Int) : ℚ) / 10 ^ 7 := by
  refine ⟨rfl, by norm_num⟩

/-- C7: when a driving row's timestamp is exactly equidistant between the two
rows of the other table, the nearest-match join selects the earlier row
(pandas resolves `bdiff <= fdiff` toward the backward candidate). -/
theorem asofNearest_tie_prefers_earlier {α β : Type} (x : α) (t ta tb : Int) (va vb : β)
    (hab : ta < tb) (heq : t - ta = tb - t) :
    mergeAsofNearest [(t, x)] [(ta, va), (tb, vb)] = [(t, x, some va)] := by
  have h1 : ta ≤ t := by omega
  have h2 : ¬ tb ≤ t := by omega
  have h3 : ¬ t ≤ ta := by omega
  have h4 : t ≤ tb := by omega
  have h5 : t - ta ≤ tb - t := le_of_eq heq
  have h6 : t ≤ tb - t + ta := by omega
  simp [mergeAsofNearest, asofNearest, asofBackward, asofForward,
    h1, h2, h3, h4, h5, h6]

/-- Witness for C7: timestamp 5 is equidistant between 3 and 7 and the join
picks the row at 3. -/
theorem asofNearest_tie_prefers_earlier_witness :
    mergeAsofNearest [((5 : Int), (0 : ℚ))] [((3 : Int), (10 : ℚ)), (7, 20)] =
      [(5, 0, some 10)] :=
  asofNearest_tie_prefers_earlier 0 5 3 7 10 20 (by decide) (by decide)

/-- C9: when the minimum of the MaxNode column equals its maximum, the color
normalization range defaults to [0, 1] (and the guard is a total function —
the degenerate case is recovered locally, never fatal). -/
theorem colorRange_degenerate (rows : List (List ℚ)) (mn mx : ℚ)
    (hmin : (rows.filterMap maxConcern).min? = some mn)
    (hmax : (rows.filterMap maxConcern).max? = some mx)
    (h : mn = mx) :
    colorRange mn mx = (0, 1) := by
  simp [colorRange, h]

/-- Witness for C9 on a table whose MaxNode column is constantly 2. -/
theorem colorRange_degenerate_witness : colorRange 2 2 = (0, 1) :=
  colorRange_degenerate [[2], [2]] 2 2 (by decide) (by decide) rfl

/-- C2 (amended): when every node folder contributes exactly one CSV file, the
node names are pairwise distinct, and each file yields a nonempty retained
series with pairwise-distinct non-NaT timestamps and no extraction failure,
the JointNodeTable has exactly one value column per discovered node (in
discovery order) and one row per distinct timestamp across all nodes. -/
theorem nodeTable_one_file_per_node (folders : List (String × List RawRow))
    (hnames : (folders.map Prod.fst).Nodup)
    (hok : ∀ f ∈ folders, (processFile2D f.2).toOption ≠ Option.none)
    (hne : ∀ f ∈ folders, seriesOf f ≠ [])
    (hkeys : ∀ f ∈ folders, (seriesKeysOf f).Nodup)
    (hnat : ∀ f ∈ folders, Option.none ∉ seriesKeysOf f) :
    ∃ df, nodeTable2D (folders.map (fun f => (f.1, [f.2]))) = Except.ok df ∧
      df.cols = folders.map Prod.fst ∧
      df.rows.length = (folders.flatMap seriesKeysOf).toFinset.card := by
  have hlen : ∀ d : DF, (fillna0 (sortDf d)).rows.length = d.rows.length := by
    intro d
    simp [fillna0, sortDf, length_sortByLe]
  have hcols : ∀ d : DF, (fillna0 (sortDf d)).cols = d.cols := fun d => rfl
  cases folders with
  | nil => exact ⟨⟨[], []⟩, rfl, rfl, by simp⟩
  | cons f rest =>
    have hbuild : buildNodeData2D ((f :: rest).map (fun f => (f.1, [f.2]))) =
        Except.ok (mergeLoop2D ((f :: rest).map seriesDf)) := by
      unfold buildNodeData2D
      rw [flatten_one_file, mapM_fileDf2D _ hok]
      rfl
    have hloop : mergeLoop2D ((f :: rest).map seriesDf) =
        (rest.map seriesDf).foldl
          (fun acc df => if dfEmpty acc then df else mergeOuter acc df) (seriesDf f) := by
      simp [mergeLoop2D, dfEmpty]
    have hmemf : f ∈ f :: rest := List.mem_cons_self f rest
    have hnames1 : f.1 ∉ rest.map Prod.fst := by
      rw [List.map_cons, List.nodup_cons] at hnames
      exact hnames.1
    have hnames2 : (rest.map Prod.fst).Nodup := by
      rw [List.map_cons, List.nodup_cons] at hnames
      exact hnames.2
    obtain ⟨c1, c2, c3, c4⟩ := foldl_merge_invariant (rest.map seriesDf) (seriesDf f)
      (by simp [seriesDf])
      (by
        simp only [seriesDf, ne_eq, List.map_eq_nil_iff]
        exact hne f hmemf)
      (by rw [keysOf_seriesDf]; exact hkeys f hmemf)
      (by
        intro d hd
        obtain ⟨g, hg, rfl⟩ := List.mem_map.mp hd
        rw [keysOf_seriesDf]
        exact hkeys g (List.mem_cons_of_mem _ hg))
      (by
        intro d hd c hc
        obtain ⟨g, hg, rfl⟩ := List.mem_map.mp hd
        simp only [seriesDf, List.mem_singleton] at hc ⊢
        subst hc
        intro hgf
        exact hnames1 (hgf ▸ List.mem_map.mpr ⟨g, hg, rfl⟩))
      (by rw [flatMap_cols_map_seriesDf]; exact hnames2)
    rw [← hloop] at c1 c2 c3 c4
    refine ⟨fillna0 (sortDf (mergeLoop2D ((f :: rest).map seriesDf))), ?_, ?_, ?_⟩
    · unfold nodeTable2D
      rw [hbuild]
      rfl
    · rw [hcols, c1, flatMap_cols_map_seriesDf]
      simp [seriesDf]
    · rw [hlen]
      have hkeyrows : (mergeLoop2D ((f :: rest).map seriesDf)).rows.length =
          (keysOf (mergeLoop2D ((f :: rest).map seriesDf))).length := by
        simp [keysOf]
      rw [hkeyrows, ← c2.dedup, ← List.card_toFinset, c3, keysOf_seriesDf,
        flatMap_keys_map_seriesDf, List.flatMap_cons, List.toFinset_append]

/-- Witness for C2's amended theorem: two nodes, one file each, distinct
timestamps — two columns, two rows. -/
theorem nodeTable_one_file_per_node_witness :
    ∃ df, nodeTable2D ([("node1",
          [(⟨some 1, PyVal.str "drone: 5", some "Valid", Option.none, Option.none⟩ :
            RawRow)]),
        ("node2",
          [(⟨some 2, PyVal.str "drone: 7", some "Valid", Option.none, Option.none⟩ :
            RawRow)])].map (fun f => (f.1, [f.2]))) = Except.ok df ∧
      df.cols = [("node1", [(⟨some 1, PyVal.str "drone: 5", some "Valid", Option.none,
          Option.none⟩ : RawRow)]),
        ("node2", [(⟨some 2, PyVal.str "drone: 7", some "Valid", Option.none,
          Option.none⟩ : RawRow)])].map Prod.fst ∧
      df.rows.length = ([("node1", [(⟨some 1, PyVal.str "drone: 5", some "Valid",
          Option.none, Option.none⟩ : RawRow)]),
        ("node2", [(⟨some 2, PyVal.str "drone: 7", some "Valid", Option.none,
          Option.none⟩ : RawRow)])].flatMap seriesKeysOf).toFinset.card :=
  nodeTable_one_file_per_node _ (by decide) (by decide) (by decide) (by decide) (by decide)

/-- C2 (counterexample to the claim as stated): a single node "node1" with TWO
CSV files makes the outer merge rename the colliding value columns to
"node1_x" and "node1_y" — the column set no longer equals the set of
discovered node identifiers. -/
theorem nodeTable_two_files_counterexample :
    ∃ df, nodeTable2D [("node1",
        [[(⟨some 1, PyVal.str "drone: 5", some "Valid", Option.none, Option.none⟩ :
            RawRow)],
         [(⟨some 2, PyVal.str "drone: 7", some "Valid", Option.none, Option.none⟩ :
            RawRow)]])] = Except.ok df ∧
      df.cols = ["node1_x", "node1_y"] ∧
      df.cols.toFinset ≠ ({"node1"} : Finset String) := by
  refine ⟨_, rfl, rfl, by decide⟩

/-- C8: two node series with timestamps [t1,t3] and [t2,t4] outer-merge into a
4-row table that, before the fill step, still distinguishes missing cells
(NaN), and after the single sort-then-fill becomes the ascending table
[t1,t2,t3,t4] with 0 exactly where a node lacks a sample. -/
theorem merge_two_series_scenario (t1 t2 t3 t4 : Int) (a1 a3 b2 b4 : ℚ)
    (h12 : t1 < t2) (h23 : t2 < t3) (h34 : t3 < t4) :
    mergeLoop2D [⟨["node1"], [(some t1, [some a1]), (some t3, [some a3])]⟩,
        ⟨["node2"], [(some t2, [some b2]), (some t4, [some b4])]⟩] =
      ⟨["node1", "node2"],
        [(some t1, [some a1, Option.none]), (some t3, [some a3, Option.none]),
         (some t2, [Option.none, some b2]), (some t4, [Option.none, some b4])]⟩ ∧
    fillna0 (sortDf (mergeLoop2D
        [⟨["node1"], [(some t1, [some a1]), (some t3, [some a3])]⟩,
         ⟨["node2"], [(some t2, [some b2]), (some t4, [some b4])]⟩])) =
      ⟨["node1", "node2"],
        [(some t1, [some a1, some 0]), (some t2, [some 0, some b2]),
         (some t3, [some a3, some 0]), (some t4, [some 0, some b4])]⟩ := by
  have n21 : ¬ (t2 = t1) := by omega
  have n41 : ¬ (t4 = t1) := by omega
  have n23 : ¬ (t2 = t3) := by omega
  have n43 : ¬ (t4 = t3) := by omega
  have hpre : mergeLoop2D [⟨["node1"], [(some t1, [some a1]), (some t3, [some a3])]⟩,
      ⟨["node2"], [(some t2, [some b2]), (some t4, [some b4])]⟩] =
      ⟨["node1", "node2"],
        [(some t1, [some a1, Option.none]), (some t3, [some a3, Option.none]),
         (some t2, [Option.none, some b2]), (some t4, [Option.none, some b4])]⟩ := by
    rw [show mergeLoop2D [⟨["node1"], [(some t1, [some a1]), (some t3, [some a3])]⟩,
        ⟨["node2"], [(some t2, [some b2]), (some t4, [some b4])]⟩] =
      mergeOuter ⟨["node1"], [(some t1, [some a1]), (some t3, [some a3])]⟩
        ⟨["node2"], [(some t2, [some b2]), (some t4, [some b4])]⟩ from rfl]
    simp [mergeOuter, suffixCols, keysOf, List.filter_cons, n21, n41, n23, n43]
  refine ⟨hpre, ?_⟩
  rw [hpre]
  have l12 : t1 ≤ t2 := le_of_lt h12
  have l24 : t2 ≤ t4 := by omega
  have l34 : t3 ≤ t4 := le_of_lt h34
  have nl32 : ¬ (t3 ≤ t2) := by omega
  simp [sortDf, sortByLe, insertByLe, tsLe, fillna0, l12, l24, l34, nl32]

/-- Witness for C8 at timestamps 1 < 2 < 3 < 4. -/
theorem merge_two_series_scenario_witness :
    mergeLoop2D [⟨["node1"], [(some 1, [some (5 : ℚ)]), (some 3, [some 6])]⟩,
        ⟨["node2"], [(some 2, [some (7 : ℚ)]), (some 4, [some 8])]⟩] =
      ⟨["node1", "node2"],
        [(some 1, [some 5, Option.none]), (some 3, [some 6, Option.none]),
         (some 2, [Option.none, some 7]), (some 4, [Option.none, some 8])]⟩ ∧
    fillna0 (sortDf (mergeLoop2D
        [⟨["node1"], [(some 1, [some (5 : ℚ)]), (some 3, [some 6])]⟩,
         ⟨["node2"], [(some 2, [some (7 : ℚ)]), (some 4, [some 8])]⟩])) =
      ⟨["node1", "node2"],
        [(some 1, [some 5, some 0]), (some 2, [some 0, some 7]),
         (some 3, [some 6, some 0]), (some 4, [some 0, some 8])]⟩ :=
  merge_two_series_scenario 1 2 3 4 5 6 7 8 (by decide) (by decide) (by decide)

/-- C10: on identical inputs the 2D and the 3D variant build exactly the same
JointNodeTable — same retained rows, same extracted values, same outer merge,
same sort and same fill. -/
theorem nodeTable2D_eq_nodeTable3D (folders : List (String × List (List RawRow))) :
    nodeTable2D folders = nodeTable3D folders := rfl

end AcousticDrone
